import Mathlib

/-!
# Verification of the quicksync_calc extraction / classification / normalization pipeline

Shallow embedding of the repository's Python pipeline scripts
(`analysis.py`, `scripts/migrate-gist-data.py`, `scripts/backfill-architectures.py`,
`scripts/backfill-submitter-id.py`, `scripts/flag-r2-data.py`,
`scripts/export-to-json.py`) and proofs about the embedded definitions.

Modelling conventions, used throughout:
* Python `str` values are Lean `String`s (processed internally as `List Char`);
  case mapping (`str.upper`/`str.lower`) is modelled on the ASCII letters,
  which covers every string the pipeline compares case-insensitively.
* Python `float` is modelled by `PyFloat`: an exact rational for finite values
  (no IEEE-754 rounding, overflow or underflow of finite literals) together
  with explicit `inf`, `-inf` and `nan` values whose comparison semantics
  follow IEEE-754 (every comparison against `nan` is false).
* Python exceptions that a script catches (`ValueError` from `int()` /
  `float()`, parse failures of `pd.read_fwf`) are modelled with `Option`.
* `re.search` on the static pattern tables is modelled by a Brzozowski
  derivative matcher over a small regular-expression syntax; a pattern ending
  in `$` is recorded with its `endAnchored` flag set.
-/

namespace QuickSync

/-! ## Characters and Python string primitives -/

/-- Python `str.strip()` whitespace (and the characters `\s` matches in an
ASCII regex): space, tab, newline, carriage return, vertical tab, form feed. -/
def isPySpace (c : Char) : Bool :=
  c == ' ' || c == '\t' || c == '\n' || c == '\r' || c == '\x0b' || c == '\x0c'

/-- ASCII decimal digit, the characters Python's `int`/`float` parsers and the
regex class `\d` accept in the pipeline's inputs. -/
def isDigitA (c : Char) : Bool :=
  '0' ≤ c && c ≤ '9'

/-- Numeric value of an ASCII digit. -/
def dval (c : Char) : Nat := c.toNat - 48

/-- Python `str.lower()` on one character (ASCII letters). -/
def lowerA (c : Char) : Char :=
  if 65 ≤ c.toNat && c.toNat ≤ 90 then Char.ofNat (c.toNat + 32) else c

/-- Python `str.upper()` on one character (ASCII letters). -/
def upperA (c : Char) : Char :=
  if 97 ≤ c.toNat && c.toNat ≤ 122 then Char.ofNat (c.toNat - 32) else c

/-- Python `str.lower()`. -/
def lowerS (l : List Char) : List Char := l.map lowerA

/-- Python `str.upper()`. -/
def upperS (l : List Char) : List Char := l.map upperA

/-- Strip trailing characters satisfying `p` (right-hand side of `strip`). -/
def stripEnd (p : Char → Bool) (l : List Char) : List Char :=
  ((l.reverse).dropWhile p).reverse

/-- Python `str.strip()`: drop leading and trailing whitespace. -/
def pyStrip (l : List Char) : List Char :=
  stripEnd isPySpace (l.dropWhile isPySpace)

/-- Python `str.rstrip('x')`: drop every trailing `'x'`. -/
def rstripX (l : List Char) : List Char :=
  stripEnd (fun c => c == 'x') l

/-- Python `str.replace(pat, '')` (both uses in the pipeline replace with the
empty string): remove the non-overlapping occurrences of `pat`, left to right.
Implemented with an explicit fuel equal to the input length so that it is
structural and evaluates inside the kernel. -/
def removeSubAux (pat : List Char) : Nat → List Char → List Char
  | _, [] => []
  | 0, l => l
  | fuel + 1, c :: rest =>
    if !pat.isEmpty && pat.isPrefixOf (c :: rest) then
      removeSubAux pat fuel (List.drop (pat.length - 1) rest)
    else
      c :: removeSubAux pat fuel rest

/-- Python `s.replace(pat, '')`. -/
def removeSub (pat l : List Char) : List Char :=
  removeSubAux pat l.length l

/-- `list.startswith(pre)` on strings. -/
def startsWithPy (s pre : String) : Bool :=
  pre.toList.isPrefixOf s.toList

/-! ## Python floats: exact finite values plus the IEEE special values -/

/-- The model of a Python `float`: a finite value is an exact rational
(parsing idealized: no rounding to binary64), and `inf`, `-inf`, `nan` are
explicit. -/
inductive PyFloat where
  | finite (q : ℚ)
  | inf
  | ninf
  | nan
  deriving DecidableEq, Repr

/-- Python `<` on floats: any comparison with `nan` is false. Finite values
are compared with `Rat.blt` (which the kernel evaluates); `ratBlt_iff_lt`
below relates it to `<` on `ℚ`. -/
def pyLt : PyFloat → PyFloat → Bool
  | .nan, _ => false
  | _, .nan => false
  | .finite a, .finite b => Rat.blt a b
  | .finite _, .inf => true
  | .finite _, .ninf => false
  | .inf, _ => false
  | .ninf, .ninf => false
  | .ninf, _ => true

/-- Python `<=` on floats: any comparison with `nan` is false. -/
def pyLe : PyFloat → PyFloat → Bool
  | .nan, _ => false
  | _, .nan => false
  | .finite a, .finite b => !Rat.blt b a
  | .finite _, .inf => true
  | .finite _, .ninf => false
  | .inf, .inf => true
  | .inf, _ => false
  | .ninf, _ => true

/-- Python truthiness of a float: false exactly at `0.0` (`nan` and the
infinities are truthy). -/
def pyTruthy : PyFloat → Bool
  | .finite q => q != 0
  | _ => true

/-- Division of rationals written with `mkRat` so that the kernel can
evaluate it; `divQ_eq_div` below shows it is division on `ℚ`. -/
def divQ (a b : ℚ) : ℚ :=
  mkRat (a.num * (b.den : ℤ) * (if b.num < 0 then -1 else 1))
    (a.den * b.num.natAbs)

/-- Python float division under the IEEE rules for the special values. The
pipeline only divides when the divisor is `> 0`, so the `finite / finite 0`
case (a `ZeroDivisionError` in Python) is unreachable; it is mapped to `nan`
to keep the function total. -/
def pyDiv : PyFloat → PyFloat → PyFloat
  | .nan, _ => .nan
  | _, .nan => .nan
  | .inf, .inf => .nan
  | .inf, .ninf => .nan
  | .ninf, .inf => .nan
  | .ninf, .ninf => .nan
  | .inf, .finite b => if Rat.blt b 0 then .ninf else .inf
  | .ninf, .finite b => if Rat.blt b 0 then .inf else .ninf
  | .finite _, .inf => .finite 0
  | .finite _, .ninf => .finite 0
  | .finite a, .finite b => if b = 0 then .nan else .finite (divQ a b)

/-! ### Parsing: Python's `float(str)` and `int(str)` -/

/-- One step of a digit group with PEP 515 underscores: accumulate digits,
allowing a single `'_'` between two digits. Returns the accumulated value,
the number of digits read, and the unread remainder. -/
def digitsUAux (acc k : Nat) : List Char → Nat × Nat × List Char
  | [] => (acc, k, [])
  | c :: rest =>
    if isDigitA c then digitsUAux (10 * acc + dval c) (k + 1) rest
    else if c == '_' then
      match rest with
      | d :: r2 =>
        if isDigitA d then digitsUAux (10 * acc + dval d) (k + 1) r2
        else (acc, k, c :: rest)
      | [] => (acc, k, [c])
    else (acc, k, c :: rest)

/-- A non-empty digit group (value, digit count, remainder), or `none` when
the input does not start with a digit. -/
def digitsU : List Char → Option (Nat × Nat × List Char)
  | [] => none
  | c :: rest =>
    if isDigitA c then some (digitsUAux (dval c) 1 rest) else none

/-- An optional leading sign; returns (isNegative, remainder). -/
def parseSign : List Char → Bool × List Char
  | [] => (false, [])
  | c :: r =>
    if c == '+' then (false, r)
    else if c == '-' then (true, r)
    else (false, c :: r)

/-- The mantissa of a float literal: `digits`, `digits.`, `digits.digits` or
`.digits`; returns the integer part, the fraction digits' value, the number
of fraction digits, and the remainder. -/
def parseMantissa (l : List Char) : Option ((Nat × Nat × Nat) × List Char) :=
  match digitsU l with
  | some (ip, _, r) =>
    match r with
    | '.' :: r2 =>
      match digitsU r2 with
      | some (fp, k, r3) => some ((ip, fp, k), r3)
      | none => some ((ip, 0, 0), r2)
    | _ => some ((ip, 0, 0), r)
  | none =>
    match l with
    | '.' :: r2 =>
      match digitsU r2 with
      | some (fp, k, r3) => some ((0, fp, k), r3)
      | none => none
    | _ => none

/-- The exact rational value `±(ip + fp / 10 ^ k) * 10 ^ e` of a parsed float
literal, assembled with `mkRat` so that the kernel can evaluate it;
`ratOfParts_eq` below states the closed form. -/
def ratOfParts (neg : Bool) (ip fp k : Nat) (e : ℤ) : ℚ :=
  let m : ℤ := (ip * 10 ^ k + fp : ℕ)
  let sm : ℤ := if neg then -m else m
  if 0 ≤ e then mkRat (sm * 10 ^ e.toNat) (10 ^ k)
  else mkRat sm (10 ^ k * 10 ^ (-e).toNat)

/-- An optional exponent part `e±digits`; `some (0, l)` when there is none,
`none` when an `e` is present but malformed. -/
def parseExp : List Char → Option (ℤ × List Char)
  | [] => some (0, [])
  | c :: r =>
    if c == 'e' || c == 'E' then
      match parseSign r with
      | (neg, r2) =>
        match digitsU r2 with
        | some (e, _, r3) => some ((if neg then -(e : ℤ) else (e : ℤ)), r3)
        | none => none
    else some (0, c :: r)

/-- The body of Python's `float(str)` after whitespace stripping: an optional
sign followed by `nan`, `inf`, `infinity` (case-insensitive) or a decimal
literal with an optional exponent, consuming the whole string. -/
def pyFloatCore (l : List Char) : Option PyFloat :=
  match parseSign l with
  | (neg, r) =>
    if lowerS r == "nan".toList then some .nan
    else if lowerS r == "inf".toList || lowerS r == "infinity".toList then
      some (if neg then .ninf else .inf)
    else
      match parseMantissa r with
      | some ((ip, fp, k), r2) =>
        match parseExp r2 with
        | some (e, []) => some (.finite (ratOfParts neg ip fp k e))
        | _ => none
      | none => none

/-- Python `float(s)`: strip whitespace, then parse; `none` models
`ValueError`. -/
def pyFloat? (s : String) : Option PyFloat :=
  pyFloatCore (pyStrip s.toList)

/-- Python `int(s)` (base 10): strip whitespace, optional sign, a digit group
consuming the whole string; `none` models `ValueError`. -/
def pyInt? (s : String) : Option ℤ :=
  match parseSign (pyStrip s.toList) with
  | (neg, r) =>
    match digitsU r with
    | some (n, _, []) => some (if neg then -(n : ℤ) else (n : ℤ))
    | _ => none

/-! ## Python number formatting (for the hash input f-string)

`f"{x}"` on an `int` is the usual decimal form.  On a `float`, CPython prints
the shortest decimal string that round-trips; since finite floats are
modelled as exact decimal rationals here, this is the exact minimal decimal
expansion (idealizing away the scientific notation CPython switches to for
very large/small magnitudes, which the pipeline's data never reaches).
`None` prints as `"None"`. -/

/-- How many times `p` divides `n` (fuel-bounded trial division; total). -/
def multAux (p : Nat) : Nat → Nat → Nat
  | 0, _ => 0
  | fuel + 1, n => if 2 ≤ p && p ≤ n && n % p == 0 then multAux p fuel (n / p) + 1 else 0

/-- Multiplicity of `p` in `n`. -/
def multP (p n : Nat) : Nat := multAux p n n

/-- Decimal digits of a natural number (fuel-bounded; total). -/
def natDigitsAux : Nat → Nat → List Char
  | 0, _ => []
  | fuel + 1, n =>
    if n == 0 then [] else natDigitsAux fuel (n / 10) ++ [Char.ofNat (48 + n % 10)]

/-- Decimal string of a natural number. -/
def natStr (n : Nat) : String :=
  if n == 0 then "0" else String.mk (natDigitsAux (n + 1) n)

/-- Decimal string of an integer (Python `str(int)`). -/
def intStr (i : ℤ) : String :=
  if i < 0 then "-" ++ natStr i.natAbs else natStr i.natAbs

/-- Left-pad with `'0'` to length `k`. -/
def padZeros (k : Nat) (s : String) : String :=
  String.mk (List.replicate (k - s.length) '0') ++ s

/-- Python `str(float)` for the model: minimal exact decimal expansion, with
`.0` appended to integral values, and `a/b` as a (never reached for the
pipeline's decimal inputs) fallback for non-decimal rationals. -/
def reprQ (q : ℚ) : String :=
  let sign := if q.num < 0 then "-" else ""
  let n := q.num.natAbs
  let a := multP 2 q.den
  let b := multP 5 q.den
  if q.den == 1 then sign ++ natStr n ++ ".0"
  else if q.den == 2 ^ a * 5 ^ b then
    let k := max a b
    let scaled := n * 10 ^ k / q.den
    sign ++ natStr (scaled / 10 ^ k) ++ "." ++ padZeros k (natStr (scaled % 10 ^ k))
  else sign ++ natStr n ++ "/" ++ natStr q.den

/-- Python `str` of a float value. -/
def reprPyFloat : PyFloat → String
  | .finite q => reprQ q
  | .inf => "inf"
  | .ninf => "-inf"
  | .nan => "nan"

/-- Python `f"{x}"` of an optional float (`None` prints as `"None"`). -/
def reprOptFloat : Option PyFloat → String
  | some v => reprPyFloat v
  | none => "None"

/-! ## SHA-256 (`hashlib.sha256(...).hexdigest()`)

A direct implementation of FIPS 180-4 over byte lists, with 32-bit words as
`Nat` reduced `% 2 ^ 32`.  The hashing theorems below only use that the
digest is a function of its input string, but the digest itself is computed
in full. -/

/-- 2^32. -/
def w32 : Nat := 4294967296

/-- Rotate a 32-bit word right by `n`. -/
def rotr (n x : Nat) : Nat := (x >>> n ||| x <<< (32 - n)) % w32

/-- FIPS 180-4 Σ0. -/
def bSig0 (x : Nat) : Nat := rotr 2 x ^^^ rotr 13 x ^^^ rotr 22 x

/-- FIPS 180-4 Σ1. -/
def bSig1 (x : Nat) : Nat := rotr 6 x ^^^ rotr 11 x ^^^ rotr 25 x

/-- FIPS 180-4 σ0. -/
def sSig0 (x : Nat) : Nat := rotr 7 x ^^^ rotr 18 x ^^^ (x >>> 3)

/-- FIPS 180-4 σ1. -/
def sSig1 (x : Nat) : Nat := rotr 17 x ^^^ rotr 19 x ^^^ (x >>> 10)

/-- FIPS 180-4 Ch. -/
def chF (x y z : Nat) : Nat := (x &&& y) ^^^ ((x ^^^ (w32 - 1)) &&& z)

/-- FIPS 180-4 Maj. -/
def majF (x y z : Nat) : Nat := (x &&& y) ^^^ (x &&& z) ^^^ (y &&& z)

/-- The SHA-256 round constants (FIPS 180-4, written in decimal). -/
def sha256K : List Nat :=
  [1116352408, 1899447441, 3049323471, 3921009573,
   961987163, 1508970993, 2453635748, 2870763221,
   3624381080, 310598401, 607225278, 1426881987,
   1925078388, 2162078206, 2614888103, 3248222580,
   3835390401, 4022224774, 264347078, 604807628,
   770255983, 1249150122, 1555081692, 1996064986,
   2554220882, 2821834349, 2952996808, 3210313671,
   3336571891, 3584528711, 113926993, 338241895,
   666307205, 773529912, 1294757372, 1396182291,
   1695183700, 1986661051, 2177026350, 2456956037,
   2730485921, 2820302411, 3259730800, 3345764771,
   3516065817, 3600352804, 4094571909, 275423344,
   430227734, 506948616, 659060556, 883997877,
   958139571, 1322822218, 1537002063, 1747873779,
   1955562222, 2024104815, 2227730452, 2361852424,
   2428436474, 2756734187, 3204031479, 3329325298]

/-- The SHA-256 initial hash value (FIPS 180-4, written in decimal). -/
def sha256H0 : List Nat :=
  [1779033703, 3144134277, 1013904242, 2773480762,
   1359893119, 2600822924, 528734635, 1541459225]

/-- Big-endian bytes of `v`, `k` bytes wide. -/
def beBytes : Nat → Nat → List Nat
  | 0, _ => []
  | k + 1, v => beBytes k (v / 256) ++ [v % 256]

/-- SHA-256 padding: `0x80`, zeros to 56 mod 64, the bit length in 8 bytes. -/
def sha256Pad (msg : List Nat) : List Nat :=
  msg ++ 0x80 :: List.replicate ((64 - (msg.length + 9) % 64) % 64) 0
    ++ beBytes 8 (msg.length * 8)

/-- Combine each 4 bytes into a 32-bit big-endian word. -/
def bytesToWords : List Nat → List Nat
  | b0 :: b1 :: b2 :: b3 :: rest =>
    (((b0 * 256 + b1) * 256 + b2) * 256 + b3) :: bytesToWords rest
  | _ => []

/-- Extend the 16 message words to 64 (fuel-driven; `ws` grows by one each
step, indexing from the tail). -/
def extendW : Nat → List Nat → List Nat
  | 0, ws => ws
  | fuel + 1, ws =>
    let n := ws.length
    let w (i : Nat) : Nat := ws.getD i 0
    extendW fuel
      (ws ++ [(sSig1 (w (n - 2)) + w (n - 7) + sSig0 (w (n - 15)) + w (n - 16)) % w32])

/-- One SHA-256 compression round. -/
def sha256Round (st : List Nat) (kw : Nat × Nat) : List Nat :=
  match st with
  | [a, b, c, d, e, f, g, h] =>
    let t1 := (h + bSig1 e + chF e f g + kw.1 + kw.2) % w32
    let t2 := (bSig0 a + majF a b c) % w32
    [(t1 + t2) % w32, a, b, c, (d + t1) % w32, e, f, g]
  | st => st

/-- Process one 64-byte block. -/
def sha256Block (h : List Nat) (block : List Nat) : List Nat :=
  let ws := extendW 48 (bytesToWords block)
  let out := (List.zip sha256K ws).foldl sha256Round h
  (List.zip h out).map fun p => (p.1 + p.2) % w32

/-- Split into 64-byte chunks (fuel-bounded; total). -/
def chunks64Aux : Nat → List Nat → List (List Nat)
  | 0, _ => []
  | _, [] => []
  | fuel + 1, l => l.take 64 :: chunks64Aux fuel (l.drop 64)

/-- The SHA-256 digest (32 bytes) of a byte list. -/
def sha256Bytes (msg : List Nat) : List Nat :=
  let padded := sha256Pad msg
  ((chunks64Aux padded.length padded).foldl sha256Block sha256H0).flatMap
    (beBytes 4)

/-- UTF-8 encoding of one character (Python `str.encode()`). -/
def utf8Char (c : Char) : List Nat :=
  let n := c.toNat
  if n < 0x80 then [n]
  else if n < 0x800 then [0xc0 + n / 64, 0x80 + n % 64]
  else if n < 0x10000 then
    [0xe0 + n / 4096, 0x80 + n / 64 % 64, 0x80 + n % 64]
  else
    [0xf0 + n / 262144, 0x80 + n / 4096 % 64, 0x80 + n / 64 % 64, 0x80 + n % 64]

/-- UTF-8 bytes of a string. -/
def utf8Bytes (s : String) : List Nat := s.toList.flatMap utf8Char

/-- Lower-case hex digit of `n < 16`. -/
def hexDigit (n : Nat) : Char :=
  if n < 10 then Char.ofNat (48 + n) else Char.ofNat (87 + n)

/-- `hashlib.sha256(s.encode()).hexdigest()`. -/
def sha256hex (s : String) : String :=
  String.mk ((sha256Bytes (utf8Bytes s)).flatMap fun b => [hexDigit (b / 16), hexDigit (b % 16)])

/-! ## A small regex engine (Brzozowski derivatives) for the pattern tables

The static `CPU_PATTERNS` tables only use literals, character classes,
`\d{n}`, `.*`, `\s*`, `?` and a final `$`; `re.search(p, s)` is "some
substring of `s` matches `p`" (`searchRE`), and with a final `$` "some
suffix of `s` matches" (`searchEndRE`). -/

/-- Regular expressions over characters. -/
inductive RE where
  | emp
  | eps
  | cls (p : Char → Bool)
  | seq (a b : RE)
  | alt (a b : RE)
  | star (a : RE)

/-- Does the regex accept the empty string? -/
def nullable : RE → Bool
  | .emp => false
  | .eps => true
  | .cls _ => false
  | .seq a b => nullable a && nullable b
  | .alt a b => nullable a || nullable b
  | .star _ => true

/-- Brzozowski derivative with respect to one character. -/
def deriv (r : RE) (c : Char) : RE :=
  match r with
  | .emp => .emp
  | .eps => .emp
  | .cls p => if p c then .eps else .emp
  | .seq a b =>
    if nullable a then .alt (.seq (deriv a c) b) (deriv b c)
    else .seq (deriv a c) b
  | .alt a b => .alt (deriv a c) (deriv b c)
  | .star a => .seq (deriv a c) (.star a)

/-- Does the regex match the whole character list? -/
def matchRE (r : RE) : List Char → Bool
  | [] => nullable r
  | c :: cs => matchRE (deriv r c) cs

/-- Any character (used to pad a search to a whole-string match). -/
def anyC : RE := .cls fun _ => true

/-- `.*` padding. -/
def allStar : RE := .star anyC

/-- Python `re.search(p, s) is not None`: some substring matches. -/
def searchRE (r : RE) (s : String) : Bool :=
  matchRE (.seq allStar (.seq r allStar)) s.toList

/-- `re.search` for a pattern ending in `$`: some suffix reaching the end of
the string matches. -/
def searchEndRE (r : RE) (s : String) : Bool :=
  matchRE (.seq allStar r) s.toList

/-- A single literal character. -/
def chr (c : Char) : RE := .cls fun d => d == c

/-- The concatenation of a list of regexes. -/
def rcat (l : List RE) : RE := l.foldr .seq .eps

/-- A literal string. -/
def strR (s : String) : RE := rcat (s.toList.map chr)

/-- A character class given by a list (e.g. `[3579]`). -/
def oneOf (cs : List Char) : RE := .cls fun c => cs.contains c

/-- The class `\d` (ASCII digits, as in the tables' inputs). -/
def digitR : RE := .cls isDigitA

/-- `r{n}`: `n` copies of `r`. -/
def repR (r : RE) : Nat → RE
  | 0 => .eps
  | n + 1 => .seq r (repR r n)

/-- `r?`. -/
def optR (r : RE) : RE := .alt .eps r

/-- `.` (any character but a newline). -/
def dotR : RE := .cls fun c => c != '\n'

/-- `\s` (whitespace class). -/
def spaceR : RE := .cls isPySpace

/-- `[A-Z]`. -/
def upperR : RE := .cls Char.isUpper

/-- `[3579]`, the Core-series brand digits. -/
def cls3579 : RE := oneOf ['3', '5', '7', '9']

/-- `i[3579]-<lead>\d{k}`, the recurring Core-series shape of the tables. -/
def iN (lead : String) (k : Nat) : RE :=
  rcat [chr 'i', cls3579, chr '-', strR lead, repR digitR k]

/-! ## `scripts/migrate-gist-data.py`: CPU_PATTERNS and lookup_architecture -/

namespace Migrate

/-- `CPUArchitecture` dataclass of migrate-gist-data.py. -/
structure CPUArchitecture where
  architecture : String
  codename : String
  release_year : ℤ
  sort_order : ℤ
  deriving DecidableEq, Repr

/-- `CPU_PATTERNS` of migrate-gist-data.py (lines 57-81), in source order:
`(regex, architecture, codename, release year, sort order)`. None of these
patterns is `$`-anchored. -/
def CPU_PATTERNS : List (RE × String × String × ℤ × ℤ) :=
  [(iN "2" 3, "Sandy Bridge", "SNB", 2011, 20),
   (iN "3" 3, "Ivy Bridge", "IVB", 2012, 30),
   (iN "4" 3, "Haswell", "HSW", 2013, 40),
   (iN "5" 3, "Broadwell", "BDW", 2014, 50),
   (iN "6" 3, "Skylake", "SKL", 2015, 60),
   (iN "7" 3, "Kaby Lake", "KBL", 2017, 70),
   (iN "8" 3, "Coffee Lake", "CFL", 2018, 80),
   (iN "9" 3, "Coffee Lake Refresh", "CFL-R", 2019, 90),
   (iN "10" 3, "Comet Lake", "CML", 2020, 100),
   (rcat [iN "10" 2, chr 'G'], "Ice Lake", "ICL", 2019, 95),
   (rcat [iN "11" 2, chr 'G'], "Tiger Lake", "TGL", 2020, 105),
   (iN "11" 3, "Rocket Lake", "RKL", 2021, 110),
   (iN "12" 3, "Alder Lake", "ADL", 2021, 120),
   (iN "13" 3, "Raptor Lake", "RPL", 2022, 130),
   (iN "14" 3, "Raptor Lake Refresh", "RPL-R", 2023, 140),
   (rcat [strR "Ultra ", cls3579, chr ' ', chr '1', repR digitR 2],
     "Meteor Lake", "MTL", 2023, 150),
   (rcat [strR "Ultra ", cls3579, chr ' ', chr '2', repR digitR 2,
      oneOf ['K', 'F', 'S']], "Arrow Lake", "ARL", 2024, 200),
   (rcat [strR "Ultra ", cls3579, chr ' ', chr '2', repR digitR 2,
      oneOf ['V', 'U']], "Lunar Lake", "LNL", 2024, 210),
   (rcat [strR "Xeon", .star dotR, strR "E3-1", oneOf ['2', '3'],
      repR digitR 2], "Xeon E3", "Various", 2015, 55),
   (rcat [strR "Xeon", .star dotR, strR "E-2", oneOf ['1', '2', '3'],
      repR digitR 2], "Xeon E", "CFL", 2018, 85),
   (rcat [strR "Pentium", .star dotR, chr 'G', oneOf ['5', '6', '7'],
      repR digitR 3], "Pentium Gold", "CFL", 2018, 82),
   (rcat [strR "Celeron", .star dotR, chr 'G', oneOf ['4', '5', '6', '7'],
      repR digitR 3], "Celeron", "Various", 2017, 65),
   (rcat [chr 'N', oneOf ['1', '2'], repR digitR 2],
     "Alder Lake-N", "ADL-N", 2023, 125)]

/-- The `for pattern, ... in CPU_PATTERNS: if re.search(pattern, cpu_raw)`
loop, over an arbitrary rule list. -/
def lookupAux : List (RE × String × String × ℤ × ℤ) → String → Option CPUArchitecture
  | [], _ => none
  | (pat, arch, cn, yr, so) :: rs, s =>
    if searchRE pat s then some ⟨arch, cn, yr, so⟩ else lookupAux rs s

/-- `lookup_architecture` of migrate-gist-data.py (lines 162-167). -/
def lookup_architecture (cpu_raw : String) : Option CPUArchitecture :=
  lookupAux CPU_PATTERNS cpu_raw

end Migrate

/-! ## `scripts/backfill-architectures.py`: CPU_PATTERNS and parse_cpu -/

namespace Backfill

/-- A table pattern: the regex together with whether the source pattern ends
in `$` (searched with `searchEndRE` rather than `searchRE`). -/
structure Pat where
  re : RE
  atEnd : Bool

/-- A pattern with no `$`. -/
def pat (r : RE) : Pat := ⟨r, false⟩

/-- A `$`-anchored pattern. -/
def patE (r : RE) : Pat := ⟨r, true⟩

/-- `re.search(p, s) is not None` for a table pattern. -/
def searchPat (p : Pat) (s : String) : Bool :=
  if p.atEnd then searchEndRE p.re s else searchRE p.re s

/-- `CPU_PATTERNS` of backfill-architectures.py (lines 33-94), in source
order: `(pattern, architecture, generation-or-None)`. -/
def CPU_PATTERNS : List (Pat × String × Option ℤ) :=
  [(pat (iN "2" 3), "Sandy Bridge", some 2),
   (pat (iN "3" 3), "Ivy Bridge", some 3),
   (pat (iN "4" 3), "Haswell", some 4),
   (pat (iN "5" 3), "Broadwell", some 5),
   (pat (iN "6" 3), "Skylake", some 6),
   (pat (iN "7" 3), "Kaby Lake", some 7),
   (pat (iN "8" 3), "Coffee Lake", some 8),
   (pat (iN "9" 3), "Coffee Lake Refresh", some 9),
   (pat (rcat [iN "10" 2, chr 'G']), "Ice Lake", some 10),
   (patE (rcat [iN "10" 3, optR upperR]), "Comet Lake", some 10),
   (pat (rcat [iN "11" 2, chr 'G']), "Tiger Lake", some 11),
   (pat (iN "11" 3), "Rocket Lake", some 11),
   (pat (iN "12" 3), "Alder Lake", some 12),
   (pat (iN "13" 3), "Raptor Lake", some 13),
   (pat (iN "14" 3), "Raptor Lake Refresh", some 14),
   (pat (rcat [strR "Ultra ", cls3579, chr ' ', chr '1', repR digitR 2,
      optR (oneOf ['H', 'U', 'P'])]), "Meteor Lake", some 1),
   (pat (rcat [strR "Ultra ", cls3579, chr ' ', chr '2', repR digitR 2,
      oneOf ['K', 'F', 'S']]), "Arrow Lake", some 2),
   (pat (rcat [strR "Ultra ", cls3579, chr ' ', chr '2', repR digitR 2,
      oneOf ['V', 'U']]), "Lunar Lake", some 2),
   (pat (rcat [strR "Xeon", .star dotR, strR "E3-", repR digitR 4,
      .star spaceR, strR "v6"]), "Kaby Lake", some 7),
   (pat (rcat [strR "Xeon", .star dotR, strR "E3-", repR digitR 4,
      .star spaceR, strR "v5"]), "Skylake", some 6),
   (pat (rcat [strR "Xeon", .star dotR, strR "E3-", repR digitR 4,
      .star spaceR, strR "v4"]), "Broadwell", some 5),
   (pat (rcat [strR "Xeon", .star dotR, strR "E3-", repR digitR 4,
      .star spaceR, strR "v3"]), "Haswell", some 4),
   (pat (rcat [strR "Xeon", .star dotR, strR "E3-1", oneOf ['2', '3'],
      repR digitR 2]), "Xeon E3", none),
   (pat (rcat [strR "Xeon", .star dotR, strR "E-2", oneOf ['1', '2', '3'],
      repR digitR 2]), "Xeon E", some 8),
   (pat (rcat [strR "E-2", oneOf ['1', '2', '3'], repR digitR 2,
      optR (chr 'G')]), "Xeon E", some 8),
   (pat (rcat [strR "Pentium", .star dotR, chr 'G', oneOf ['5', '6', '7'],
      repR digitR 3]), "Pentium Gold", some 8),
   (pat (rcat [strR "G4", repR digitR 3, optR (oneOf ['T'])]),
     "Coffee Lake", some 8),
   (pat (rcat [strR "Celeron", .star dotR, chr 'G', oneOf ['4', '5', '6', '7'],
      repR digitR 3]), "Celeron", none),
   (pat (rcat [chr 'N', oneOf ['4', '5', '6'], repR digitR 3]),
     "Jasper Lake", none),
   (pat (rcat [chr 'N', oneOf ['1', '2'], repR digitR 2]),
     "Alder Lake-N", some 12),
   (patE (rcat [chr 'N', repR digitR 2]), "Alder Lake-N", some 12),
   (pat (rcat [strR "i3-N", repR digitR 3]), "Alder Lake-N", some 12),
   (pat (rcat [chr 'J', oneOf ['4', '5', '6'], repR digitR 3]),
     "Gemini Lake", none),
   (pat (rcat [strR "m3-", repR digitR 4, chr 'Y']), "Amber Lake", some 8),
   (pat (rcat [strR "M-5Y", repR digitR 2]), "Broadwell", some 5),
   (pat (rcat [strR "Pentium", .star dotR, strR "Silver"]),
     "Gemini Lake", none),
   (pat (rcat [strR "Silver", .star dotR, repR digitR 4]),
     "Gemini Lake", none),
   (pat (rcat [strR "Arc A", repR digitR 3]), "Arc Alchemist", none),
   (pat (rcat [strR "Processor N", repR digitR 3]), "Alder Lake-N", some 12)]

/-- The `for pattern, architecture, generation in CPU_PATTERNS` loop, over an
arbitrary rule list. -/
def parseCpuAux : List (Pat × String × Option ℤ) → String → Option String × Option ℤ
  | [], _ => (none, none)
  | (p, arch, gen) :: rs, s =>
    if searchPat p s then (some arch, gen) else parseCpuAux rs s

/-- `parse_cpu` of backfill-architectures.py (lines 97-102). -/
def parse_cpu (cpu_raw : String) : Option String × Option ℤ :=
  parseCpuAux CPU_PATTERNS cpu_raw

end Backfill

/-! ## `parse_cpu_info` of migrate-gist-data.py (lines 137-159)

Its three `re.search` calls use capture groups, so they are embedded
directly as leftmost-match scanners with the same semantics:
* brand: `(i[3579]|Ultra [3579])`, group 1;
* model: `(i\d)-(.*?)(?:\s|$)` — at the leftmost `i<digit>-`, the lazy
  group 2 is the run of characters up to (excluding) the first whitespace or
  the end; or else `Ultra \d (\d+[A-Z]?)` — at the leftmost `Ultra <digit> `
  followed by at least one digit, the greedy digit run plus an optional
  uppercase letter;
* generation: `(\d{4,5})` on the model — the leftmost run of at least four
  digits, matched greedily to at most five. -/

namespace Migrate

/-- Does the brand alternation match at the head? Returns the matched text. -/
def brandHere : List Char → Option (List Char)
  | 'i' :: d :: _ =>
    if ['3', '5', '7', '9'].contains d then some ['i', d] else none
  | 'U' :: 'l' :: 't' :: 'r' :: 'a' :: ' ' :: d :: _ =>
    if ['3', '5', '7', '9'].contains d then some ['U', 'l', 't', 'r', 'a', ' ', d]
    else none
  | _ => none

/-- `re.search(r'(i[3579]|Ultra [3579])', ...)`: leftmost match. -/
def searchBrand : List Char → Option (List Char)
  | [] => none
  | c :: rest =>
    match brandHere (c :: rest) with
    | some m => some m
    | none => searchBrand rest

/-- Does `(i\d)-(.*?)(?:\s|$)` match at the head? Returns group 2. -/
def iDashHere : List Char → Option (List Char)
  | 'i' :: d :: '-' :: rest =>
    if isDigitA d then some (rest.takeWhile fun c => !isPySpace c) else none
  | _ => none

/-- `re.search(r'(i\d)-(.*?)(?:\s|$)', ...)`: group 2 of the leftmost
match. -/
def searchIDash : List Char → Option (List Char)
  | [] => none
  | c :: rest =>
    match iDashHere (c :: rest) with
    | some m => some m
    | none => searchIDash rest

/-- Does `Ultra \d (\d+[A-Z]?)` match at the head? Returns group 1. -/
def ultraHere : List Char → Option (List Char)
  | 'U' :: 'l' :: 't' :: 'r' :: 'a' :: ' ' :: d :: ' ' :: rest =>
    if isDigitA d then
      match rest.takeWhile isDigitA with
      | [] => none
      | ds =>
        some (ds ++
          match rest.drop ds.length with
          | a :: _ => if a.isUpper then [a] else []
          | [] => [])
    else none
  | _ => none

/-- `re.search(r'Ultra \d (\d+[A-Z]?)', ...)`: group 1 of the leftmost
match. -/
def searchUltra : List Char → Option (List Char)
  | [] => none
  | c :: rest =>
    match ultraHere (c :: rest) with
    | some m => some m
    | none => searchUltra rest

/-- `re.search(r'(\d{4,5})', ...)`: the leftmost run of at least 4 digits,
matched greedily to at most 5. -/
def searchD45 : List Char → Option (List Char)
  | c1 :: c2 :: c3 :: c4 :: r =>
    if isDigitA c1 && isDigitA c2 && isDigitA c3 && isDigitA c4 then
      some ([c1, c2, c3, c4] ++
        match r with
        | c5 :: _ => if isDigitA c5 then [c5] else []
        | [] => [])
    else searchD45 (c2 :: c3 :: c4 :: r)
  | _ => none

/-- `int()` of a known-digit string (group of `(\d{4,5})` truncated). -/
def digitsVal (l : List Char) : ℤ :=
  (l.foldl (fun acc c => 10 * acc + dval c) 0 : ℕ)

/-- The generation extraction of `parse_cpu_info` (lines 151-157):
`gen_match = re.search(r'(\d{4,5})', model or '')`, then
`int(gen_str[:-3]) if len(gen_str) >= 4 else None` (`gen_str[:-3]` drops the
last three characters). -/
def genFromChars (m : List Char) : Option ℤ :=
  match searchD45 m with
  | some g =>
    if 4 ≤ g.length then some (digitsVal (g.take (g.length - 3))) else none
  | none => none

/-- Generation from the optional model string (`model or ''`). -/
def genFromModel (model : Option String) : Option ℤ :=
  genFromChars (model.getD "").toList

/-- `parse_cpu_info` of migrate-gist-data.py (lines 137-159): brand, model,
generation. -/
def parse_cpu_info (cpu_raw : String) : Option String × Option String × Option ℤ :=
  let cs := cpu_raw.toList
  let brand := (searchBrand cs).map String.mk
  let model :=
    match searchIDash cs with
    | some m => some (String.mk (pyStrip m))
    | none => (searchUltra cs).map String.mk
  (brand, model, genFromModel model)

end Migrate

/-! ## migrate-gist-data.py: process_dataframe and generate_result_hash -/

/-- One raw row of an extracted benchmark table, each cell as text (the
`str(...)` view of the pandas cell). -/
structure RawRow where
  CPU : String
  TEST : String
  FILE : String
  BITRATE : String
  TIME : String
  AVG_FPS : String
  AVG_SPEED : String
  AVG_WATTS : String
  user : String
  deriving DecidableEq, Repr

/-- The record dict built by `process_dataframe` (lines 222-239). -/
structure Record where
  submitter_id : Option String
  cpu_raw : String
  cpu_brand : Option String
  cpu_model : Option String
  cpu_generation : Option ℤ
  architecture : Option String
  test_name : String
  test_file : String
  bitrate_kbps : ℤ
  time_seconds : PyFloat
  avg_fps : PyFloat
  avg_speed : Option PyFloat
  avg_watts : Option PyFloat
  fps_per_watt : Option PyFloat
  vendor : String
  result_hash : String
  deriving DecidableEq, Repr

namespace Migrate

/-- The `avg_watts` normalization of `process_dataframe`
(migrate-gist-data.py lines 206-217): sentinel guard (`''`, `'N/A'`
case-insensitive, `'nan'` case-insensitive), `float()` parse with
`ValueError` as `None`, and the plausibility filter
`avg_watts <= 0 or avg_watts > 500`. -/
def normWatts (s : String) : Option PyFloat :=
  let w := pyStrip s.toList
  if !w.isEmpty && upperS w != "N/A".toList && lowerS w != "nan".toList then
    match pyFloatCore (pyStrip w) with
    | some v =>
      if pyLe v (.finite 0) || pyLt (.finite 500) v then none else some v
    | none => none
  else none

/-- `fps_per_watt = avg_fps / avg_watts if avg_watts and avg_watts > 0 else
None` (line 220): Python truthiness of `None`/`float`, then `> 0`. -/
def computeFpw (avg_fps : PyFloat) : Option PyFloat → Option PyFloat
  | some w =>
    if pyTruthy w && pyLt (.finite 0) w then some (pyDiv avg_fps w) else none
  | none => none

/-- The pipe-delimited hash input of `generate_result_hash` (line 172):
`f"{cpu_raw}|{test_name}|{test_file}|{bitrate_kbps}|{avg_fps}|{avg_watts}"`. -/
def hashInput6 (cpu_raw test_name test_file : String) (bitrate_kbps : ℤ)
    (avg_fps : PyFloat) (avg_watts : Option PyFloat) : String :=
  cpu_raw ++ "|" ++ test_name ++ "|" ++ test_file ++ "|" ++ intStr bitrate_kbps
    ++ "|" ++ reprPyFloat avg_fps ++ "|" ++ reprOptFloat avg_watts

/-- `generate_result_hash` of migrate-gist-data.py (lines 170-173): SHA-256
hex digest of the six-field pipe-delimited string. -/
def generate_result_hash (r : Record) : String :=
  sha256hex (hashInput6 r.cpu_raw r.test_name r.test_file r.bitrate_kbps
    r.avg_fps r.avg_watts)

/-- The per-row body of `process_dataframe` (lines 181-240).  `none` models
the row-level `except (ValueError, TypeError, KeyError): continue` — an
unguarded `int()`/`float()` failure (bitrate, time, fps, or a non-sentinel
speed) skips the whole row; the guarded `avg_watts` parse never does. -/
def processRow (row : RawRow) (include_github_user : Bool) : Option Record :=
  let cpu_raw := String.mk (pyStrip row.CPU.toList)
  match Migrate.parse_cpu_info cpu_raw with
  | (brand, model, generation) =>
  let arch_info := Migrate.lookup_architecture cpu_raw
  match pyInt? (String.mk (pyStrip (removeSub "kb/s".toList (pyStrip row.BITRATE.toList)))) with
  | none => none
  | some bitrate_kbps =>
  match pyFloat? (String.mk (pyStrip (removeSub "s".toList (pyStrip row.TIME.toList)))) with
  | none => none
  | some time_seconds =>
  match pyFloat? (String.mk (pyStrip row.AVG_FPS.toList)) with
  | none => none
  | some avg_fps =>
  let speed_str := pyStrip row.AVG_SPEED.toList
  match
    (if !speed_str.isEmpty && speed_str != ['x'] && lowerS speed_str != "nan".toList
     then (pyFloat? (String.mk (rstripX speed_str))).map some
     else some none : Option (Option PyFloat)) with
  | none => none
  | some avg_speed =>
  let avg_watts := normWatts row.AVG_WATTS
  let fps_per_watt := computeFpw avg_fps avg_watts
  some
    { submitter_id := if include_github_user then some row.user else none
      cpu_raw := cpu_raw
      cpu_brand := brand
      cpu_model := model
      cpu_generation := generation
      architecture := arch_info.map (·.architecture)
      test_name := row.TEST
      test_file := row.FILE
      bitrate_kbps := bitrate_kbps
      time_seconds := time_seconds
      avg_fps := avg_fps
      avg_speed := avg_speed
      avg_watts := avg_watts
      fps_per_watt := fps_per_watt
      vendor := "intel"
      result_hash :=
        sha256hex (hashInput6 cpu_raw row.TEST row.FILE bitrate_kbps avg_fps avg_watts) }

/-- `process_dataframe` (lines 176-248): each row independently, skipped rows
dropped. -/
def process_dataframe (rows : List RawRow) (include_github_user : Bool) :
    List Record :=
  rows.filterMap (processRow · include_github_user)

end Migrate

/-! ## backfill-submitter-id.py: generate_result_hash -/

namespace BackfillSub

/-- The result dict built by `extract_results_with_users`
(backfill-submitter-id.py lines 84-92); `avg_watts` keeps the raw cell
(stringified), the hash function normalizes it inline. -/
structure BRow where
  username : String
  cpu_raw : String
  test_name : String
  test_file : String
  bitrate_kbps : ℤ
  avg_fps : PyFloat
  avg_watts : String
  deriving DecidableEq, Repr

/-- The inline `avg_watts` normalization of `generate_result_hash`
(backfill-submitter-id.py lines 101-111); textually the same logic as
`Migrate.normWatts`. -/
def normWatts (s : String) : Option PyFloat :=
  let w := pyStrip s.toList
  if !w.isEmpty && upperS w != "N/A".toList && lowerS w != "nan".toList then
    match pyFloatCore (pyStrip w) with
    | some v =>
      if pyLe v (.finite 0) || pyLt (.finite 500) v then none else some v
    | none => none
  else none

/-- `generate_result_hash` of backfill-submitter-id.py (lines 99-114). -/
def generate_result_hash (row : BRow) : String :=
  let avg_watts := normWatts row.avg_watts
  sha256hex (Migrate.hashInput6 row.cpu_raw row.test_name row.test_file
    row.bitrate_kbps row.avg_fps avg_watts)

end BackfillSub

/-! ## extract_results of migrate-gist-data.py (lines 110-134)

`pd.read_fwf` (the pandas fixed-width parser, an external library) is
modelled as an explicit parameter `readFwf : List String → Option Fwf`:
given the six-line window it either fails (an exception, caught by the
`except` and treated as a skip) or yields a header row and data rows.  The
acceptance gate — append the `user` column, then require shape `(5, 9)` and
the exact expected column list — is the source's logic and is embedded
concretely. -/

/-- A parsed fixed-width table: the column names and the data rows (one cell
list per row, aligned with the columns). -/
structure Fwf where
  cols : List String
  rows : List (List String)
  deriving DecidableEq, Repr

namespace Migrate

/-- `expected_cols` (lines 112-113). -/
def expected_cols : List String :=
  ["CPU", "TEST", "FILE", "BITRATE", "TIME", "AVG_FPS", "AVG_SPEED",
   "AVG_WATTS", "user"]

/-- `df['user'] = ...` (lines 122-125): overwrite the `user` column if the
parsed table already has one, else append it. -/
def addUserCol (u : String) (t : Fwf) : Fwf :=
  match t.cols.findIdx? (· == "user") with
  | some idx => ⟨t.cols, t.rows.map fun r => r.set idx u⟩
  | none => ⟨t.cols ++ ["user"], t.rows.map fun r => r ++ [u]⟩

/-- One window's contribution (lines 120-129): parse the six-line window,
add the user column, and accept the rows only if the shape is `(5, 9)` and
the columns are exactly `expected_cols`. -/
def gateRows (readFwf : List String → Option Fwf) (u : String)
    (window : List String) : List (List String) :=
  match readFwf window with
  | none => []
  | some t =>
    let t2 := addUserCol u t
    if t2.rows.length == 5 && t2.cols.length == 9 && t2.cols == expected_cols
    then t2.rows else []

/-- The scan over a comment body's lines (lines 117-129): at every line that
starts with `"CPU"`, try the six-line window `lines[i:i+6]`; scanning always
continues with the next line. -/
def extract_results_lines (readFwf : List String → Option Fwf) (u : String) :
    List String → List (List String)
  | [] => []
  | line :: rest =>
    (if startsWithPy line "CPU"
     then gateRows readFwf u (List.take 6 (line :: rest)) else [])
      ++ extract_results_lines readFwf u rest

/-- A gist comment: its body, already split into lines, and its author
(`None` for a deleted account, replaced by `'ghost'`). -/
structure Comment where
  bodyLines : List String
  user : Option String
  deriving DecidableEq, Repr

/-- `extract_results` (lines 110-134): every comment, every window; accepted
tables concatenate (`pd.concat`). -/
def extract_results (readFwf : List String → Option Fwf)
    (comments : List Comment) : List (List String) :=
  comments.flatMap fun c =>
    extract_results_lines readFwf (c.user.getD "ghost") c.bodyLines

end Migrate

/-! ## flag-r2-data.py / export-to-json.py: flag_data_quality

The two scripts define `flag_data_quality` verbatim-identically
(flag-r2-data.py lines 13-32, export-to-json.py lines 41-60); it is embedded
once.  A result is a JSON object with the exported columns plus the flag
key. -/

/-- A benchmark result row as exported to JSON (export-to-json.py lines
69-78) plus `data_quality_flags`. -/
structure FlagResult where
  id : ℤ
  submitted_at : String
  submitter_id : Option String
  cpu_raw : String
  cpu_brand : Option String
  cpu_model : Option String
  cpu_generation : Option ℤ
  architecture : Option String
  test_name : String
  test_file : String
  bitrate_kbps : ℤ
  time_seconds : PyFloat
  avg_fps : PyFloat
  avg_speed : Option PyFloat
  avg_watts : Option PyFloat
  fps_per_watt : Option PyFloat
  result_hash : String
  vendor : String
  data_quality_flags : Option (List String)
  deriving DecidableEq, Repr

namespace FlagR2

/-- Flag 1 of `flag_data_quality`: `power_too_low` when `avg_watts` is
non-null and `< 3.0`. -/
def powerFlag (r : FlagResult) : List String :=
  match r.avg_watts with
  | some w => if pyLt w (.finite 3) then ["power_too_low"] else []
  | none => []

/-- Flag 2: `efficiency_outlier` when `fps_per_watt` is non-null and
`> 400`. -/
def effFlag (r : FlagResult) : List String :=
  match r.fps_per_watt with
  | some f => if pyLt (.finite 400) f then ["efficiency_outlier"] else []
  | none => []

/-- Flag 3: `arrow_lake_power_issue` when `architecture == 'Arrow Lake'`. -/
def arlFlag (r : FlagResult) : List String :=
  if r.architecture == some "Arrow Lake" then ["arrow_lake_power_issue"] else []

/-- The flag list built by `flag_data_quality`: the three conditions checked
independently, in order, each appending its symbol. -/
def flagsOf (r : FlagResult) : List String :=
  powerFlag r ++ effFlag r ++ arlFlag r

/-- `flag_data_quality` (flag-r2-data.py lines 13-32 and export-to-json.py
lines 41-60): set `result['data_quality_flags'] = flags if flags else None`,
leave every other key unchanged, and return the result. -/
def flag_data_quality (r : FlagResult) : FlagResult :=
  { r with
    data_quality_flags := if (flagsOf r).isEmpty then none else some (flagsOf r) }

end FlagR2

/-! ## General lemmas about the embedding -/

/-- `Rat.blt` decides `<` on `ℚ`. -/
theorem ratBlt_iff (a b : ℚ) : Rat.blt a b = true ↔ a < b := Iff.rfl

/-- `pyLt` on finite values is `<` on `ℚ`. -/
theorem pyLt_finite_iff (a b : ℚ) :
    pyLt (.finite a) (.finite b) = true ↔ a < b := Iff.rfl

/-- `pyLe` on finite values is `≤` on `ℚ`. -/
theorem pyLe_finite_iff (a b : ℚ) :
    pyLe (.finite a) (.finite b) = true ↔ a ≤ b := by
  show (!Rat.blt b a) = true ↔ a ≤ b
  rw [Bool.not_eq_true']
  exact Iff.rfl

/-- `divQ` is division on `ℚ` (for a nonzero divisor). -/
theorem divQ_eq_div (a b : ℚ) (hb : b ≠ 0) : divQ a b = a / b := by
  have hda : ((a.den : ℕ) : ℚ) ≠ 0 := Nat.cast_ne_zero.2 a.den_nz
  have hnb : ((b.num : ℤ) : ℚ) ≠ 0 := Int.cast_ne_zero.2 (Rat.num_ne_zero.2 hb)
  have hdb : ((b.den : ℕ) : ℚ) ≠ 0 := Nat.cast_ne_zero.2 b.den_nz
  have han : ((a.num : ℤ) : ℚ) = a * a.den :=
    (div_eq_iff hda).1 (Rat.num_div_den a)
  have hbn : ((b.num : ℤ) : ℚ) = b * b.den :=
    (div_eq_iff hdb).1 (Rat.num_div_den b)
  have G : ((a.num : ℚ) * (b.den : ℚ)) / ((a.den : ℚ) * (b.num : ℚ)) = a / b := by
    rw [div_eq_div_iff (mul_ne_zero hda hnb) hb, han, hbn]
    ring
  unfold divQ
  rw [Rat.mkRat_eq_divInt, Rat.divInt_eq_div]
  by_cases h : b.num < 0
  · rw [if_pos h]
    push_cast [Int.cast_natAbs]
    rw [abs_of_neg (show ((b.num : ℤ) : ℚ) < 0 by exact_mod_cast h)]
    calc ((a.num : ℚ) * (b.den : ℚ) * -1) / ((a.den : ℚ) * -(b.num : ℚ))
        = -((a.num : ℚ) * (b.den : ℚ)) / -((a.den : ℚ) * (b.num : ℚ)) := by
          ring_nf
      _ = ((a.num : ℚ) * (b.den : ℚ)) / ((a.den : ℚ) * (b.num : ℚ)) :=
          neg_div_neg_eq _ _
      _ = a / b := G
  · rw [if_neg h]
    push_cast [Int.cast_natAbs]
    rw [abs_of_nonneg (show (0 : ℚ) ≤ ((b.num : ℤ) : ℚ) by
      exact_mod_cast not_lt.1 h)]
    simpa using G

/-- Dropping twice is dropping once. -/
theorem dropWhile_idem (p : Char → Bool) (l : List Char) :
    (l.dropWhile p).dropWhile p = l.dropWhile p := by
  induction l with
  | nil => rfl
  | cons c t ih => by_cases h : p c <;> simp [List.dropWhile_cons, h, ih]

/-- The head of a `dropWhile` result does not satisfy the predicate. -/
theorem dropWhile_head_false (p : Char → Bool) (l : List Char) {c : Char}
    {t : List Char} (h : l.dropWhile p = c :: t) : p c = false := by
  have := List.head?_dropWhile_not p l
  rw [h] at this
  exact this

/-- A stripped list starts with a non-space (or is empty). -/
theorem pyStrip_head_false {l : List Char} {c : Char} {t : List Char}
    (h : pyStrip l = c :: t) : isPySpace c = false := by
  have h3 : ((l.dropWhile isPySpace).reverse.dropWhile isPySpace)
      <:+ (l.dropWhile isPySpace).reverse := List.dropWhile_suffix _
  have h4 := List.reverse_prefix.2 h3
  rw [List.reverse_reverse] at h4
  have h5 : pyStrip l <+: l.dropWhile isPySpace := h4
  rw [h] at h5
  obtain ⟨rest, hrest⟩ := h5
  have h6 : l.dropWhile isPySpace = c :: (t ++ rest) := by
    rw [← hrest]
    simp
  exact dropWhile_head_false isPySpace l h6

/-- Python `strip` is idempotent. -/
theorem pyStrip_idem (l : List Char) : pyStrip (pyStrip l) = pyStrip l := by
  have h1 : (pyStrip l).dropWhile isPySpace = pyStrip l := by
    cases hY : pyStrip l with
    | nil => rfl
    | cons c t =>
      rw [List.dropWhile_cons, pyStrip_head_false hY]
      simp
  show stripEnd isPySpace ((pyStrip l).dropWhile isPySpace) = pyStrip l
  rw [h1]
  show (((pyStrip l).reverse).dropWhile isPySpace).reverse = pyStrip l
  unfold pyStrip stripEnd
  rw [List.reverse_reverse, dropWhile_idem]

/-- `lookupAux` is first-match-wins: it returns the data of the first rule,
in table order, whose pattern matches. -/
theorem lookupAux_eq_find (rules : List (RE × String × String × ℤ × ℤ))
    (s : String) :
    Migrate.lookupAux rules s =
      (rules.find? fun r => searchRE r.1 s).map
        (fun r => ⟨r.2.1, r.2.2.1, r.2.2.2.1, r.2.2.2.2⟩) := by
  induction rules with
  | nil => rfl
  | cons r rs ih =>
    obtain ⟨pat, arch, cn, yr, so⟩ := r
    rw [Migrate.lookupAux, List.find?]
    by_cases h : searchRE pat s <;> simp [h, ih]

/-- `parseCpuAux` is first-match-wins. -/
theorem parseCpuAux_eq_find (rules : List (Backfill.Pat × String × Option ℤ))
    (s : String) :
    Backfill.parseCpuAux rules s =
      (match rules.find? (fun r => Backfill.searchPat r.1 s) with
       | some r => (some r.2.1, r.2.2)
       | none => (none, none)) := by
  induction rules with
  | nil => rfl
  | cons r rs ih =>
    obtain ⟨p, arch, gen⟩ := r
    rw [Backfill.parseCpuAux, List.find?]
    by_cases h : Backfill.searchPat p s <;> simp [h, ih]

/-! ## The claims -/

/-- C1: Classification is first-match-wins over the ordered pattern table:
both `lookup_architecture` (migrate-gist-data.py) and `parse_cpu`
(backfill-architectures.py) return the data of the first rule, in table
order, whose regex matches anywhere in the raw CPU string.  On
`"i7-10700K"` the mobile-graphics Ice Lake rule (`...10\d{2}G`) does not
match, the desktop rule does, and the classification is Comet Lake with
generation 10 (in migrate-gist-data.py the generation comes from
`parse_cpu_info`'s numeric extraction); on `"i7-1065G7"` the
suffix-qualified Ice Lake rule, listed before the Comet Lake fallback in
backfill-architectures.py's table, wins. -/
theorem claim_C1_first_match_wins :
    (∀ s, Migrate.lookup_architecture s =
       (Migrate.CPU_PATTERNS.find? fun r => searchRE r.1 s).map
         (fun r => ⟨r.2.1, r.2.2.1, r.2.2.2.1, r.2.2.2.2⟩))
  ∧ (∀ s, Backfill.parse_cpu s =
       (match Backfill.CPU_PATTERNS.find? (fun r => Backfill.searchPat r.1 s) with
        | some r => (some r.2.1, r.2.2)
        | none => (none, none)))
  ∧ Migrate.lookup_architecture "i7-10700K"
      = some ⟨"Comet Lake", "CML", 2020, 100⟩
  ∧ Migrate.parse_cpu_info "i7-10700K" = (some "i7", some "10700K", some 10)
  ∧ Backfill.parse_cpu "i7-10700K" = (some "Comet Lake", some 10)
  ∧ Backfill.parse_cpu "i7-1065G7" = (some "Ice Lake", some 10) :=
  ⟨fun s => lookupAux_eq_find Migrate.CPU_PATTERNS s,
   fun s => parseCpuAux_eq_find Backfill.CPU_PATTERNS s,
   by decide, by decide, by decide, by decide⟩

/-- A run of four consecutive ASCII digits somewhere in the list (what
`re.search(r'(\d{4,5})', ...)` succeeding means). -/
def hasRun4 (m : List Char) : Prop :=
  ∃ pre c1 c2 c3 c4 suf, m = pre ++ c1 :: c2 :: c3 :: c4 :: suf ∧
    (isDigitA c1 && isDigitA c2 && isDigitA c3 && isDigitA c4) = true

/-- A list shorter than four characters has no four-digit run. -/
theorem not_hasRun4_of_short (m : List Char) (h : m.length < 4) :
    ¬ hasRun4 m := by
  rintro ⟨pre, c1, c2, c3, c4, suf, he, _⟩
  rw [he] at h
  simp [List.length_append] at h
  omega

/-- `searchD45` succeeds exactly when a four-digit run exists, and the match
it returns is a run of 4 or 5 digits occurring in the input. -/
theorem searchD45_spec (m : List Char) :
    ((Migrate.searchD45 m).isSome ↔ hasRun4 m)
  ∧ (∀ g, Migrate.searchD45 m = some g →
      (g.length = 4 ∨ g.length = 5) ∧ g.all isDigitA = true ∧ g <:+: m) := by
  induction m with
  | nil =>
    refine ⟨?_, ?_⟩
    · simp only [Migrate.searchD45, Option.isSome_none]
      exact ⟨fun h => by simp at h, fun h => absurd h (not_hasRun4_of_short [] (by simp))⟩
    · intro g h
      simp [Migrate.searchD45] at h
  | cons c1 rest ih =>
    match rest with
    | [] =>
      refine ⟨?_, ?_⟩
      · simp only [Migrate.searchD45, Option.isSome_none]
        exact ⟨fun h => by simp at h,
          fun h => absurd h (not_hasRun4_of_short _ (by simp))⟩
      · intro g h
        simp [Migrate.searchD45] at h
    | [c2] =>
      refine ⟨?_, ?_⟩
      · simp only [Migrate.searchD45, Option.isSome_none]
        exact ⟨fun h => by simp at h,
          fun h => absurd h (not_hasRun4_of_short _ (by simp))⟩
      · intro g h
        simp [Migrate.searchD45] at h
    | [c2, c3] =>
      refine ⟨?_, ?_⟩
      · simp only [Migrate.searchD45, Option.isSome_none]
        exact ⟨fun h => by simp at h,
          fun h => absurd h (not_hasRun4_of_short _ (by simp))⟩
      · intro g h
        simp [Migrate.searchD45] at h
    | c2 :: c3 :: c4 :: r =>
      by_cases hd : (isDigitA c1 && isDigitA c2 && isDigitA c3 && isDigitA c4) = true
      · have he : Migrate.searchD45 (c1 :: c2 :: c3 :: c4 :: r)
            = some ([c1, c2, c3, c4] ++
                match r with
                | c5 :: _ => if isDigitA c5 then [c5] else []
                | [] => []) := by
          simp only [Migrate.searchD45]
          rw [if_pos hd]
          cases r <;> rfl
        refine ⟨?_, ?_⟩
        · rw [he]
          simp only [Option.isSome_some, true_iff]
          exact ⟨[], c1, c2, c3, c4, r, rfl, hd⟩
        · intro g hg
          rw [he] at hg
          injection hg with hg
          subst hg
          obtain ⟨⟨⟨h1, h2⟩, h3⟩, h4⟩ :
              ((isDigitA c1 = true ∧ isDigitA c2 = true) ∧ isDigitA c3 = true)
                ∧ isDigitA c4 = true := by
            simpa [Bool.and_eq_true] using hd
          match r with
          | [] =>
            exact ⟨Or.inl rfl, by simp [h1, h2, h3, h4], [], [], by simp⟩
          | c5 :: r2 =>
            by_cases h5 : isDigitA c5 = true
            · refine ⟨Or.inr (by simp [h5]), by simp [h1, h2, h3, h4, h5], [], r2, ?_⟩
              simp [h5]
            · refine ⟨Or.inl (by simp [h5]), by simp [h1, h2, h3, h4, h5], [], c5 :: r2, ?_⟩
              simp [h5]
      · have he : Migrate.searchD45 (c1 :: c2 :: c3 :: c4 :: r)
            = Migrate.searchD45 (c2 :: c3 :: c4 :: r) := by
          simp only [Migrate.searchD45]
          rw [if_neg hd]
        refine ⟨?_, ?_⟩
        · rw [he, ih.1]
          constructor
          · rintro ⟨pre, d1, d2, d3, d4, suf, hdec, hdig⟩
            exact ⟨c1 :: pre, d1, d2, d3, d4, suf, by rw [hdec]; rfl, hdig⟩
          · rintro ⟨pre, d1, d2, d3, d4, suf, hdec, hdig⟩
            match pre, hdec with
            | [], hdec =>
              obtain ⟨e1, e2, e3, e4, _⟩ : c1 = d1 ∧ c2 = d2 ∧ c3 = d3 ∧ c4 = d4
                  ∧ r = suf := by
                simpa using hdec
              exact absurd (by rw [e1, e2, e3, e4]; exact hdig) hd
            | p :: pre2, hdec =>
              injection hdec with _ h2
              exact ⟨pre2, d1, d2, d3, d4, suf, h2, hdig⟩
        · intro g hg
          rw [he] at hg
          obtain ⟨hl, hdig, hinf⟩ := ih.2 g hg
          exact ⟨hl, hdig, List.infix_cons hinf⟩

/-- C7: When no rule supplies a generation, `parse_cpu_info` derives it by
extracting a 4-5 digit numeric run from the model string and dropping its
last three digits (a 4-digit run yields its first digit, a 5-digit run its
first two: `"8500"` gives 8 and `"10700"` gives 10); when the model has no
run of at least four digits the generation is null, never fabricated. -/
theorem claim_C7_generation_truncation :
    (∀ cpu, (Migrate.parse_cpu_info cpu).2.2
       = Migrate.genFromModel (Migrate.parse_cpu_info cpu).2.1)
  ∧ (∀ m : List Char, (Migrate.genFromChars m).isSome ↔ hasRun4 m)
  ∧ (∀ (m : List Char) (g : List Char), Migrate.searchD45 m = some g →
       (g.length = 4 ∨ g.length = 5) ∧ g.all isDigitA = true ∧ g <:+: m
       ∧ Migrate.genFromChars m = some (Migrate.digitsVal (g.take (g.length - 3))))
  ∧ Migrate.genFromChars "8500".toList = some 8
  ∧ Migrate.genFromChars "10700".toList = some 10
  ∧ Migrate.genFromChars "305".toList = none := by
  refine ⟨fun cpu => rfl, ?_, ?_, by decide, by decide, by decide⟩
  · intro m
    unfold Migrate.genFromChars
    cases hs : Migrate.searchD45 m with
    | none =>
      have := (searchD45_spec m).1
      rw [hs] at this
      simpa using this
    | some g =>
      obtain ⟨hl, _, _⟩ := (searchD45_spec m).2 g hs
      have h4 : 4 ≤ g.length := by rcases hl with h | h <;> omega
      have := (searchD45_spec m).1
      rw [hs] at this
      simpa [h4] using this
  · intro m g hg
    obtain ⟨hl, hdig, hinf⟩ := (searchD45_spec m).2 g hg
    have h4 : 4 ≤ g.length := by rcases hl with h | h <;> omega
    refine ⟨hl, hdig, hinf, ?_⟩
    unfold Migrate.genFromChars
    rw [hg]
    simp [h4]

/-- The contribution of the window starting at the head of a suffix of the
line list: the head must start with `"CPU"`, and the six-line window must
pass the gate. -/
def Migrate.winRows (readFwf : List String → Option Fwf) (u : String) :
    List String → List (List String)
  | [] => []
  | line :: rest =>
    if startsWithPy line "CPU"
    then Migrate.gateRows readFwf u (List.take 6 (line :: rest)) else []

/-- An 8-column 5-row parsed table (before the user column is appended). -/
def fwfTbl5 (tag : String) : Fwf :=
  ⟨["CPU", "TEST", "FILE", "BITRATE", "TIME", "AVG_FPS", "AVG_SPEED",
    "AVG_WATTS"],
   [[tag, "h264", "f1", "10kb/s", "1s", "1.0", "1.0x", "10"],
    [tag, "h264", "f2", "10kb/s", "1s", "1.0", "1.0x", "10"],
    [tag, "hevc", "f1", "10kb/s", "1s", "1.0", "1.0x", "10"],
    [tag, "hevc", "f2", "10kb/s", "1s", "1.0", "1.0x", "10"],
    [tag, "av1", "f1", "10kb/s", "1s", "1.0", "1.0x", "10"]]⟩

/-- A blob with two embedded tables: header lines at indices 0 and 6. -/
def twoTableLines : List String :=
  ["CPU A", "a1", "a2", "a3", "a4", "a5", "CPU B", "b1", "b2", "b3", "b4", "b5"]

/-- A fixed-width parser that recognizes exactly the two windows of
`twoTableLines`. -/
def twoTableReadFwf (w : List String) : Option Fwf :=
  if w = ["CPU A", "a1", "a2", "a3", "a4", "a5"] then some (fwfTbl5 "i5-8500")
  else if w = ["CPU B", "b1", "b2", "b3", "b4", "b5"] then some (fwfTbl5 "N100")
  else none

/-- C5: `extract_results` is, window by window, the sum of the independently
gated six-line windows: a window contributes its five data rows only when
the parsed block (with the user column added) has exactly five rows and
exactly the expected nine-column header; a window whose block has only four
data rows contributes nothing, and scanning continues, so one blob can yield
several accepted tables (two tables yield ten rows). -/
theorem claim_C5_window_gate :
    (∀ (readFwf : List String → Option Fwf) (u : String) (lines : List String),
       Migrate.extract_results_lines readFwf u lines
         = (List.range lines.length).flatMap
             (fun i => Migrate.winRows readFwf u (lines.drop i)))
  ∧ (∀ (readFwf : List String → Option Fwf) (u : String)
       (w : List String) (t : Fwf), readFwf w = some t →
       (Migrate.addUserCol u t).rows.length = 4 →
       Migrate.gateRows readFwf u w = [])
  ∧ (Migrate.extract_results_lines twoTableReadFwf "ghost" twoTableLines).length
      = 10 := by
  refine ⟨?_, ?_, by decide⟩
  · intro readFwf u lines
    induction lines with
    | nil => rfl
    | cons line rest ih =>
      rw [Migrate.extract_results_lines, ih, List.length_cons,
        List.range_succ_eq_map, List.flatMap_cons, List.flatMap_map]
      rfl
  · intro readFwf u w t h hlen
    unfold Migrate.gateRows
    rw [h]
    have : ((Migrate.addUserCol u t).rows.length == 5) = false := by
      rw [hlen]
      decide
    simp [this]

/-- A parsed block with a valid header but only four data rows. -/
def fwfTbl4 : Fwf :=
  ⟨["CPU", "TEST", "FILE", "BITRATE", "TIME", "AVG_FPS", "AVG_SPEED",
    "AVG_WATTS"],
   [["i5-8500", "h264", "f1", "10kb/s", "1s", "1.0", "1.0x", "10"],
    ["i5-8500", "h264", "f2", "10kb/s", "1s", "1.0", "1.0x", "10"],
    ["i5-8500", "hevc", "f1", "10kb/s", "1s", "1.0", "1.0x", "10"],
    ["i5-8500", "hevc", "f2", "10kb/s", "1s", "1.0", "1.0x", "10"]]⟩

/-- A parser that yields the four-row block for every window. -/
def readFwf4 (_ : List String) : Option Fwf := some fwfTbl4

/-- C5 witness: a four-row block under a valid header is rejected — the
window contributes zero rows. -/
theorem claim_C5_witness :
    Migrate.gateRows readFwf4 "ghost" ["CPU x", "a", "b", "c", "d", "e"] = [] :=
  claim_C5_window_gate.2.1 readFwf4 "ghost" ["CPU x", "a", "b", "c", "d", "e"]
    fwfTbl4 rfl (by decide)

/-- C2: The deduplication hash of migrate-gist-data.py is the SHA-256 hex
digest of exactly the six fields `cpu_raw`, `test_name`, `test_file`,
`bitrate_kbps`, `avg_fps`, normalized `avg_watts`, pipe-delimited in that
fixed order; consequently any two records agreeing on those six fields get
the same digest, whatever their `submitter_id` (or any other field). -/
theorem claim_C2_hash_noninterference :
    (∀ r : Record, Migrate.generate_result_hash r =
       sha256hex (r.cpu_raw ++ "|" ++ r.test_name ++ "|" ++ r.test_file ++ "|"
         ++ intStr r.bitrate_kbps ++ "|" ++ reprPyFloat r.avg_fps ++ "|"
         ++ reprOptFloat r.avg_watts))
  ∧ (∀ r1 r2 : Record,
       r1.cpu_raw = r2.cpu_raw → r1.test_name = r2.test_name →
       r1.test_file = r2.test_file → r1.bitrate_kbps = r2.bitrate_kbps →
       r1.avg_fps = r2.avg_fps → r1.avg_watts = r2.avg_watts →
       Migrate.generate_result_hash r1 = Migrate.generate_result_hash r2) := by
  constructor
  · intro r
    rfl
  · intro r1 r2 h1 h2 h3 h4 h5 h6
    unfold Migrate.generate_result_hash Migrate.hashInput6
    rw [h1, h2, h3, h4, h5, h6]

/-- A record as processed from a migrated row (fixed fields, Alice). -/
def c2recA : Record :=
  { submitter_id := some "alice"
    cpu_raw := "i5-8500", cpu_brand := some "i5", cpu_model := some "8500"
    cpu_generation := some 8, architecture := some "Coffee Lake"
    test_name := "h264_1080p_cpu", test_file := "ribblehead_1080p_h264"
    bitrate_kbps := 12016, time_seconds := .finite 24
    avg_fps := .finite (mkRat 589 10), avg_speed := some (.finite 2)
    avg_watts := some (.finite 20), fps_per_watt := none
    vendor := "intel", result_hash := "" }

/-- The same observation submitted by Bob at a different time. -/
def c2recB : Record :=
  { c2recA with submitter_id := some "bob", time_seconds := .finite 99 }

/-- C2 witness: two records with equal six-field tuples but different
submitter identities hash identically. -/
theorem claim_C2_witness :
    Migrate.generate_result_hash c2recA = Migrate.generate_result_hash c2recB
      ∧ c2recA.submitter_id ≠ c2recB.submitter_id :=
  ⟨claim_C2_hash_noninterference.2 c2recA c2recB rfl rfl rfl rfl rfl rfl,
   by decide⟩

/-- C4: `fps_per_watt` equals `avg_fps / avg_watts` whenever the normalized
`avg_watts` is non-null and `> 0`, and is null otherwise (in the code the
gate is `avg_watts and avg_watts > 0`, but a float that is `> 0` is always
truthy, so the gate is exactly `> 0`); given that normalization only
produces null or a value in `(0, 500]`, `fps_per_watt` is null iff
`avg_watts` is null. -/
theorem claim_C4_fps_per_watt :
    (∀ (fps w : PyFloat), pyLt (.finite 0) w = true →
       Migrate.computeFpw fps (some w) = some (pyDiv fps w))
  ∧ (∀ (fps : PyFloat) (ow : Option PyFloat),
       (∀ w, ow = some w → pyLt (.finite 0) w = false) →
       Migrate.computeFpw fps ow = none)
  ∧ (∀ (fps : PyFloat) (ow : Option PyFloat),
       (ow = none ∨ ∃ q : ℚ, ow = some (.finite q) ∧ 0 < q ∧ q ≤ 500) →
       (Migrate.computeFpw fps ow = none ↔ ow = none)) := by
  refine ⟨?_, ?_, ?_⟩
  · intro fps w h
    cases w with
    | finite q =>
      have hq : (0 : ℚ) < q := (ratBlt_iff 0 q).1 h
      have : (q != 0) = true := by simp [bne_iff_ne]; exact ne_of_gt hq
      simp [Migrate.computeFpw, pyTruthy, h, this]
    | inf => simp [Migrate.computeFpw, pyTruthy, h]
    | ninf => simp [pyLt] at h
    | nan => simp [pyLt] at h
  · intro fps ow h
    cases ow with
    | none => rfl
    | some w => simp [Migrate.computeFpw, h w rfl]
  · intro fps ow h
    rcases h with h | ⟨q, hq, h0, _⟩
    · subst h
      simp [Migrate.computeFpw]
    · subst hq
      have hlt : pyLt (.finite 0) (.finite q) = true := (ratBlt_iff 0 q).2 h0
      have : (q != 0) = true := by simp [bne_iff_ne]; exact ne_of_gt h0
      simp [Migrate.computeFpw, pyTruthy, hlt, this]

/-- C4 witness: a concrete in-range wattage yields the division, and the
listed hypotheses are satisfiable. -/
theorem claim_C4_witness :
    Migrate.computeFpw (.finite 10) (some (.finite 2))
      = some (pyDiv (.finite 10) (.finite 2)) :=
  claim_C4_fps_per_watt.1 (.finite 10) (.finite 2) (by decide)

/-- Membership in a conditional singleton. -/
theorem mem_if_singleton {c : Bool} (a b : String) :
    a ∈ (if c then [b] else []) ↔ c = true ∧ a = b := by
  cases c <;> simp

/-- The stored flag key reads back as the computed flag list. -/
theorem flag_getD (r : FlagResult) :
    ((FlagR2.flag_data_quality r).data_quality_flags).getD []
      = FlagR2.flagsOf r := by
  unfold FlagR2.flag_data_quality
  by_cases h : (FlagR2.flagsOf r).isEmpty
  · simp only [if_pos h, Option.getD]
    exact (List.isEmpty_iff.1 h).symm
  · have h2 : ¬(FlagR2.flagsOf r = []) := fun e => h (by simp [e])
    simp [h2]

/-- Membership in the power flag component. -/
theorem mem_powerFlag (r : FlagResult) (a : String) :
    a ∈ FlagR2.powerFlag r ↔
      a = "power_too_low" ∧ ∃ w, r.avg_watts = some w ∧ pyLt w (.finite 3) = true := by
  unfold FlagR2.powerFlag
  cases hw : r.avg_watts with
  | none => simp
  | some w => cases h : pyLt w (.finite 3) <;> simp [h]

/-- Membership in the efficiency flag component. -/
theorem mem_effFlag (r : FlagResult) (a : String) :
    a ∈ FlagR2.effFlag r ↔
      a = "efficiency_outlier" ∧ ∃ f, r.fps_per_watt = some f ∧ pyLt (.finite 400) f = true := by
  unfold FlagR2.effFlag
  cases hf : r.fps_per_watt with
  | none => simp
  | some f => cases h : pyLt (.finite 400) f <;> simp [h]

/-- Membership in the Arrow Lake flag component. -/
theorem mem_arlFlag (r : FlagResult) (a : String) :
    a ∈ FlagR2.arlFlag r ↔
      a = "arrow_lake_power_issue" ∧ r.architecture = some "Arrow Lake" := by
  unfold FlagR2.arlFlag
  by_cases h : r.architecture == some "Arrow Lake"
  · simp only [if_pos h]
    simp only [beq_iff_eq] at h
    simp [h]
  · simp only [if_neg h]
    simp only [beq_iff_eq] at h
    simp [h]

/-- C6: The data-quality flag set is computed by the three independent
additive conditions — `power_too_low` iff `avg_watts` is non-null and
`< 3.0`, `efficiency_outlier` iff `fps_per_watt` is non-null and `> 400`,
`arrow_lake_power_issue` iff the architecture equals `"Arrow Lake"` — and
flagging rejects nothing and changes none of the flagged values. -/
theorem claim_C6_flag_conditions :
    ∀ r : FlagResult,
      (("power_too_low" ∈ ((FlagR2.flag_data_quality r).data_quality_flags).getD [])
         ↔ ∃ w, r.avg_watts = some w ∧ pyLt w (.finite 3) = true)
    ∧ (("efficiency_outlier" ∈ ((FlagR2.flag_data_quality r).data_quality_flags).getD [])
         ↔ ∃ f, r.fps_per_watt = some f ∧ pyLt (.finite 400) f = true)
    ∧ (("arrow_lake_power_issue" ∈ ((FlagR2.flag_data_quality r).data_quality_flags).getD [])
         ↔ r.architecture = some "Arrow Lake")
    ∧ (FlagR2.flag_data_quality r).avg_watts = r.avg_watts
    ∧ (FlagR2.flag_data_quality r).fps_per_watt = r.fps_per_watt
    ∧ (FlagR2.flag_data_quality r).avg_fps = r.avg_fps
    ∧ (FlagR2.flag_data_quality r).architecture = r.architecture := by
  intro r
  refine ⟨?_, ?_, ?_, rfl, rfl, rfl, rfl⟩ <;>
    rw [flag_getD] <;>
    unfold FlagR2.flagsOf <;>
    simp only [List.mem_append, mem_powerFlag, mem_effFlag, mem_arlFlag] <;>
    simp

/-- C10: `flag_data_quality` writes only the `data_quality_flags` key (every
other key keeps its value; an empty flag list is stored as null) and is
idempotent: flagging already-flagged data changes nothing. -/
theorem claim_C10_flag_idempotent_frame :
    (∀ r, FlagR2.flag_data_quality (FlagR2.flag_data_quality r)
        = FlagR2.flag_data_quality r)
  ∧ (∀ r : FlagResult,
       (FlagR2.flag_data_quality r).id = r.id
     ∧ (FlagR2.flag_data_quality r).submitted_at = r.submitted_at
     ∧ (FlagR2.flag_data_quality r).submitter_id = r.submitter_id
     ∧ (FlagR2.flag_data_quality r).cpu_raw = r.cpu_raw
     ∧ (FlagR2.flag_data_quality r).cpu_brand = r.cpu_brand
     ∧ (FlagR2.flag_data_quality r).cpu_model = r.cpu_model
     ∧ (FlagR2.flag_data_quality r).cpu_generation = r.cpu_generation
     ∧ (FlagR2.flag_data_quality r).architecture = r.architecture
     ∧ (FlagR2.flag_data_quality r).test_name = r.test_name
     ∧ (FlagR2.flag_data_quality r).test_file = r.test_file
     ∧ (FlagR2.flag_data_quality r).bitrate_kbps = r.bitrate_kbps
     ∧ (FlagR2.flag_data_quality r).time_seconds = r.time_seconds
     ∧ (FlagR2.flag_data_quality r).avg_fps = r.avg_fps
     ∧ (FlagR2.flag_data_quality r).avg_speed = r.avg_speed
     ∧ (FlagR2.flag_data_quality r).avg_watts = r.avg_watts
     ∧ (FlagR2.flag_data_quality r).fps_per_watt = r.fps_per_watt
     ∧ (FlagR2.flag_data_quality r).result_hash = r.result_hash
     ∧ (FlagR2.flag_data_quality r).vendor = r.vendor)
  ∧ (∀ r, FlagR2.flagsOf r = [] →
       (FlagR2.flag_data_quality r).data_quality_flags = none) := by
  refine ⟨fun r => rfl,
    fun r => ⟨rfl, rfl, rfl, rfl, rfl, rfl, rfl, rfl, rfl, rfl, rfl, rfl, rfl,
      rfl, rfl, rfl, rfl, rfl⟩,
    fun r h => ?_⟩
  unfold FlagR2.flag_data_quality
  simp [h]

/-- `Char.ofNat` inverts `toNat` on valid code points below the surrogate
range. -/
theorem toNat_ofNat_valid {n : Nat} (h : n < 55296) :
    (Char.ofNat n).toNat = n := by
  unfold Char.ofNat
  rw [dif_pos (Or.inl h)]
  rfl

/-- Characters with equal code points are equal. -/
theorem char_eq_of_toNat_eq {c d : Char} (h : c.toNat = d.toNat) : c = d := by
  have h1 := Char.ofNat_toNat c
  rw [h, Char.ofNat_toNat] at h1
  exact h1.symm

/-- What a character must be for `upperA` to produce `d`. -/
theorem upperA_inv {c d : Char} (h : upperA c = d) :
    c = d ∨ (97 ≤ c.toNat ∧ c.toNat ≤ 122 ∧ c.toNat = d.toNat + 32) := by
  unfold upperA at h
  split at h
  · right
    rename_i hr
    have h12 : 97 ≤ c.toNat ∧ c.toNat ≤ 122 := by simpa using hr
    have hv : (Char.ofNat (c.toNat - 32)).toNat = c.toNat - 32 :=
      toNat_ofNat_valid (by omega)
    rw [h] at hv
    exact ⟨h12.1, h12.2, by omega⟩
  · left
    exact h

/-- A three-character string whose `upper()` is `"N/A"` does not parse as a
float. -/
theorem pyFloatCore_upper_NA {w : List Char} (h : upperS w = "N/A".toList) :
    pyFloatCore w = none := by
  have hlen : w.length = 3 := by
    have := congrArg List.length h
    simpa [upperS] using this
  match w, hlen with
  | [a, b, c], _ =>
    obtain ⟨h1, h2, h3⟩ : upperA a = 'N' ∧ upperA b = '/' ∧ upperA c = 'A' := by
      simpa [upperS] using h
    have hb : b = '/' := by
      rcases upperA_inv h2 with hb | ⟨hr1, _, hv⟩
      · exact hb
      · have : ('/' : Char).toNat = 47 := rfl
        omega
    have ha : a = 'N' ∨ a = 'n' := by
      rcases upperA_inv h1 with ha | ⟨_, _, hv⟩
      · exact Or.inl ha
      · refine Or.inr (char_eq_of_toNat_eq ?_)
        have e1 : ('N' : Char).toNat = 78 := rfl
        have e2 : ('n' : Char).toNat = 110 := rfl
        omega
    have hc : c = 'A' ∨ c = 'a' := by
      rcases upperA_inv h3 with hc | ⟨_, _, hv⟩
      · exact Or.inl hc
      · refine Or.inr (char_eq_of_toNat_eq ?_)
        have e1 : ('A' : Char).toNat = 65 := rfl
        have e2 : ('a' : Char).toNat = 97 := rfl
        omega
    subst hb
    rcases ha with rfl | rfl <;> rcases hc with rfl | rfl <;> decide

/-- A string whose `lower()` is `"nan"` parses to the float `nan`. -/
theorem pyFloatCore_lower_nan {w : List Char} (h : lowerS w = "nan".toList) :
    pyFloatCore w = some .nan := by
  have hlen : w.length = 3 := by
    have := congrArg List.length h
    simpa [lowerS] using this
  match w, hlen with
  | [a, b, c], _ =>
    obtain ⟨h1, h2, h3⟩ : lowerA a = 'n' ∧ lowerA b = 'a' ∧ lowerA c = 'n' := by
      simpa [lowerS] using h
    have ha1 : (a == '+') = false := by
      cases hq : a == '+' with
      | false => rfl
      | true =>
        have : a = '+' := by simpa using hq
        rw [this] at h1
        exact absurd h1 (by decide)
    have ha2 : (a == '-') = false := by
      cases hq : a == '-' with
      | false => rfl
      | true =>
        have : a = '-' := by simpa using hq
        rw [this] at h1
        exact absurd h1 (by decide)
    have hps : parseSign [a, b, c] = (false, [a, b, c]) := by
      simp [parseSign, ha1, ha2]
    have hnan : (lowerS [a, b, c] == "nan".toList) = true := by
      rw [h]
      decide
    unfold pyFloatCore
    rw [hps]
    dsimp only
    rw [if_pos hnan]

/-- The range filter of the `avg_watts` normalization: a finite parsed value
survives (`avg_watts <= 0 or avg_watts > 500` is false) exactly when it lies
in `(0, 500]`. -/
theorem watts_range_iff (q : ℚ) :
    (pyLe (.finite q) (.finite 0) || pyLt (.finite 500) (.finite q)) = false
      ↔ (0 < q ∧ q ≤ 500) := by
  constructor
  · intro h
    obtain ⟨h1, h2⟩ := Bool.or_eq_false_iff.1 h
    refine ⟨?_, ?_⟩
    · by_contra hq
      have : pyLe (.finite q) (.finite 0) = true :=
        (pyLe_finite_iff q 0).2 (le_of_not_lt hq)
      rw [this] at h1
      exact Bool.noConfusion h1
    · by_contra hq
      have : pyLt (.finite 500) (.finite q) = true :=
        (pyLt_finite_iff 500 q).2 (lt_of_not_le hq)
      rw [this] at h2
      exact Bool.noConfusion h2
  · rintro ⟨h1, h2⟩
    apply Bool.or_eq_false_iff.2
    refine ⟨?_, ?_⟩
    · cases hb : pyLe (.finite q) (.finite 0) with
      | false => rfl
      | true => exact absurd ((pyLe_finite_iff q 0).1 hb) (not_le.2 h1)
    · cases hb : pyLt (.finite 500) (.finite q) with
      | false => rfl
      | true => exact absurd ((pyLt_finite_iff 500 q).1 hb) (not_lt.2 h2)

/-- C3 counterexample: on the input `"+nan"` the normalization is NOT null —
Python's `float("+nan")` succeeds with `nan`, the sign-prefixed spelling
slips past the `lower() != 'nan'` sentinel guard, and `nan` fails both range
comparisons — although `"+nan"` does not parse as a float `x` with
`0 < x ≤ 500`.  So "the result is non-null exactly when the text parses as a
float x with 0 < x ≤ 500" is false as stated. -/
theorem claim_C3_counterexample :
    Migrate.normWatts "+nan" = some .nan
  ∧ pyFloat? "+nan" = some .nan
  ∧ (∀ q : ℚ, ¬(pyFloat? "+nan" = some (.finite q) ∧ 0 < q ∧ q ≤ 500))
  ∧ Migrate.normWatts "nan" = none := by
  refine ⟨by decide, by decide, ?_, by decide⟩
  intro q h
  have h1 := h.1
  rw [show pyFloat? "+nan" = some PyFloat.nan from by decide] at h1
  exact PyFloat.noConfusion (Option.some.inj h1)

/-- C3 (amended): `avg_watts` normalization is total; `"N/A"`
(case-insensitive), `""`, `"nan"` (case-insensitive), `"0"` and `"501"` all
normalize to null and `"45.2"` to the float 45.2; in general the result is
non-null exactly when the text parses as a float `x` with `0 < x ≤ 500` or
as a NaN spelled otherwise than the bare (case-insensitive) `"nan"` caught
by the sentinel guard, e.g. `"+nan"`. -/
theorem claim_C3_amended_normalization :
    Migrate.normWatts "N/A" = none
  ∧ Migrate.normWatts "n/a" = none
  ∧ Migrate.normWatts "" = none
  ∧ Migrate.normWatts "nan" = none
  ∧ Migrate.normWatts "NaN" = none
  ∧ Migrate.normWatts "0" = none
  ∧ Migrate.normWatts "501" = none
  ∧ Migrate.normWatts "45.2" = some (.finite (45.2 : ℚ))
  ∧ (∀ s : String, (Migrate.normWatts s).isSome = true ↔
       ((∃ q : ℚ, pyFloat? s = some (.finite q) ∧ 0 < q ∧ q ≤ 500)
        ∨ (pyFloat? s = some .nan
           ∧ lowerS (pyStrip s.toList) ≠ "nan".toList))) := by
  refine ⟨by decide, by decide, by decide, by decide, by decide, by decide,
    by decide, ?_, ?_⟩
  · rw [show (45.2 : ℚ) = mkRat 226 5 from by norm_num]
    decide
  · intro s
    unfold Migrate.normWatts pyFloat?
    dsimp only
    rw [pyStrip_idem]
    split
    · rename_i hg
      obtain ⟨⟨hne, hNA⟩, hnan⟩ :
          ((!(pyStrip s.toList).isEmpty) = true
            ∧ ¬ upperS (pyStrip s.toList) = "N/A".toList)
          ∧ ¬ lowerS (pyStrip s.toList) = "nan".toList := by
        simpa [Bool.and_eq_true, bne_iff_ne] using hg
      cases hv : pyFloatCore (pyStrip s.toList) with
      | none => simp
      | some v =>
        dsimp only
        cases v with
        | finite q =>
          constructor
          · intro hls
            by_cases hcond : (pyLe (.finite q) (.finite 0)
                || pyLt (.finite 500) (.finite q)) = true
            · rw [if_pos hcond] at hls
              exact absurd hls (by simp)
            · have hc := Bool.eq_false_iff.2 hcond
              exact Or.inl ⟨q, rfl, (watts_range_iff q).1 hc⟩
          · rintro (⟨q', he, h0, h5⟩ | ⟨he, _⟩)
            · have hq := PyFloat.finite.inj (Option.some.inj he)
              subst hq
              rw [(watts_range_iff q).2 ⟨h0, h5⟩]
              rfl
            · exact PyFloat.noConfusion (Option.some.inj he)
        | inf => simp [pyLe, pyLt]
        | ninf => simp [pyLe, pyLt]
        | nan =>
          refine iff_of_true ?_ (Or.inr ⟨rfl, hnan⟩)
          rfl
    · rename_i hg
      refine iff_of_false (by simp) ?_
      have hcases : (pyStrip s.toList).isEmpty = true
          ∨ upperS (pyStrip s.toList) = "N/A".toList
          ∨ lowerS (pyStrip s.toList) = "nan".toList := by
        cases hb1 : (pyStrip s.toList).isEmpty with
        | true => exact Or.inl rfl
        | false =>
          cases hb2 : (upperS (pyStrip s.toList) == "N/A".toList) with
          | true => exact Or.inr (Or.inl (by simpa using hb2))
          | false =>
            cases hb3 : (lowerS (pyStrip s.toList) == "nan".toList) with
            | true => exact Or.inr (Or.inr (by simpa using hb3))
            | false =>
              refine absurd ?_ hg
              show (!(pyStrip s.toList).isEmpty
                  && !(upperS (pyStrip s.toList) == "N/A".toList)
                  && !(lowerS (pyStrip s.toList) == "nan".toList)) = true
              rw [hb1, hb2, hb3]
              rfl
      have hcore : pyFloatCore (pyStrip s.toList) = none
          ∨ (pyFloatCore (pyStrip s.toList) = some .nan
             ∧ lowerS (pyStrip s.toList) = "nan".toList) := by
        rcases hcases with he | hNA | hnan
        · left
          rw [List.isEmpty_iff.1 he]
          rfl
        · left
          exact pyFloatCore_upper_NA hNA
        · right
          exact ⟨pyFloatCore_lower_nan hnan, hnan⟩
      rintro (⟨q, hq, _, _⟩ | ⟨hq, hne⟩)
      · rcases hcore with hc | ⟨hc, _⟩
        · rw [hc] at hq
          exact Option.noConfusion hq
        · rw [hc] at hq
          exact PyFloat.noConfusion (Option.some.inj hq)
      · rcases hcore with hc | ⟨_, hl⟩
        · rw [hc] at hq
          exact Option.noConfusion hq
        · exact hne hl

/-- C9: The two hash implementations are equivalent.  The inline `avg_watts`
normalization of backfill-submitter-id.py's `generate_result_hash` is the
same function as migrate-gist-data.py's `process_dataframe` normalization,
and for every row that `process_dataframe` turns into a record, the digest
backfill-submitter-id.py computes from the same raw `avg_watts` text and the
same parsed fields equals the record's stored `result_hash` — records
ingested by one script can be matched by hash by the other. -/
theorem claim_C9_hash_equivalence :
    (∀ s : String, BackfillSub.normWatts s = Migrate.normWatts s)
  ∧ (∀ (row : RawRow) (iu : Bool) (u : String),
       match Migrate.processRow row iu with
       | some rec =>
         BackfillSub.generate_result_hash
           ⟨u, rec.cpu_raw, rec.test_name, rec.test_file, rec.bitrate_kbps,
             rec.avg_fps, row.AVG_WATTS⟩ = rec.result_hash
       | none => True) := by
  refine ⟨fun s => rfl, ?_⟩
  intro row iu u
  cases hp : Migrate.processRow row iu with
  | none => trivial
  | some rec =>
    unfold Migrate.processRow at hp
    dsimp only at hp
    rcases hpc : Migrate.parse_cpu_info (String.mk (pyStrip row.CPU.toList))
      with ⟨brand, model, gen⟩
    rw [hpc] at hp
    dsimp only at hp
    cases hb : pyInt?
        (String.mk (pyStrip (removeSub "kb/s".toList (pyStrip row.BITRATE.toList)))) with
    | none => rw [hb] at hp; simp at hp
    | some bv =>
    rw [hb] at hp
    cases ht : pyFloat?
        (String.mk (pyStrip (removeSub "s".toList (pyStrip row.TIME.toList)))) with
    | none => rw [ht] at hp; simp at hp
    | some tv =>
    rw [ht] at hp
    cases hf : pyFloat? (String.mk (pyStrip row.AVG_FPS.toList)) with
    | none => rw [hf] at hp; simp at hp
    | some fv =>
    rw [hf] at hp
    cases hs :
        (if !(pyStrip row.AVG_SPEED.toList).isEmpty
            && pyStrip row.AVG_SPEED.toList != ['x']
            && lowerS (pyStrip row.AVG_SPEED.toList) != "nan".toList
         then (pyFloat? (String.mk (rstripX (pyStrip row.AVG_SPEED.toList)))).map some
         else some none : Option (Option PyFloat)) with
    | none => rw [hs] at hp; simp at hp
    | some sv =>
    rw [hs] at hp
    dsimp only at hp
    simp only [Option.some.injEq] at hp
    subst hp
    rfl

/-- C8 counterexample: a row whose BITRATE field is the unparseable `"N/A"`
(all other fields valid) is dropped entirely by `process_dataframe` — no
record with a nulled field is emitted, contradicting the claim that a
numeric parse failure in any field only degrades that field. -/
theorem claim_C8_counterexample :
    Migrate.process_dataframe
      [⟨"i5-8500", "h264_1080p_cpu", "ribblehead_1080p_h264", "N/A", "24.18s",
        "58.92", "2.456x", "20.0", "alice"⟩] false = [] := by
  decide

/-- C8 (amended): only the `avg_watts` field degrades at field level (its
parse failures and out-of-range values null the field while the record is
still emitted); an unguarded numeric parse failure — bitrate, time, avg_fps,
or a non-sentinel avg_speed — skips that one row; and no malformed row is
fatal: the remaining rows of the batch are still processed, and whether a
row survives never depends on its AVG_WATTS text. -/
theorem claim_C8_amended_degradation :
    (∀ (iu : Bool) (rows1 rows2 : List RawRow) (bad : RawRow),
       Migrate.processRow bad iu = none →
       Migrate.process_dataframe (rows1 ++ bad :: rows2) iu
         = Migrate.process_dataframe (rows1 ++ rows2) iu)
  ∧ (∀ (iu : Bool) (row : RawRow) (w1 w2 : String),
       (Migrate.processRow { row with AVG_WATTS := w1 } iu).isSome
         = (Migrate.processRow { row with AVG_WATTS := w2 } iu).isSome)
  ∧ (∀ (row : RawRow) (iu : Bool),
       match Migrate.processRow row iu with
       | some rec => rec.avg_watts = Migrate.normWatts row.AVG_WATTS
           ∧ rec.fps_per_watt = Migrate.computeFpw rec.avg_fps rec.avg_watts
       | none => True) := by
  refine ⟨?_, ?_, ?_⟩
  · intro iu rows1 rows2 bad h
    unfold Migrate.process_dataframe
    rw [List.filterMap_append, List.filterMap_append]
    simp only [List.filterMap_cons, h]
  · intro iu row w1 w2
    obtain ⟨cpu, t, f, b, ti, fps, sp, w, us⟩ := row
    show (Migrate.processRow ⟨cpu, t, f, b, ti, fps, sp, w1, us⟩ iu).isSome
       = (Migrate.processRow ⟨cpu, t, f, b, ti, fps, sp, w2, us⟩ iu).isSome
    unfold Migrate.processRow
    dsimp only
    cases hpc : Migrate.parse_cpu_info (String.mk (pyStrip cpu.toList)) with
    | mk brand mg =>
    cases hb : pyInt?
        (String.mk (pyStrip (removeSub "kb/s".toList (pyStrip b.toList)))) with
    | none => rfl
    | some bv =>
    cases ht : pyFloat?
        (String.mk (pyStrip (removeSub "s".toList (pyStrip ti.toList)))) with
    | none => rfl
    | some tv =>
    cases hf : pyFloat? (String.mk (pyStrip fps.toList)) with
    | none => rfl
    | some fv =>
    cases hs :
        (if !(pyStrip sp.toList).isEmpty && pyStrip sp.toList != ['x']
            && lowerS (pyStrip sp.toList) != "nan".toList
         then (pyFloat? (String.mk (rstripX (pyStrip sp.toList)))).map some
         else some none : Option (Option PyFloat)) with
    | none => rfl
    | some sv => rfl
  · intro row iu
    cases hp : Migrate.processRow row iu with
    | none => trivial
    | some rec =>
      unfold Migrate.processRow at hp
      dsimp only at hp
      rcases hpc : Migrate.parse_cpu_info (String.mk (pyStrip row.CPU.toList))
        with ⟨brand, model, gen⟩
      rw [hpc] at hp
      dsimp only at hp
      cases hb : pyInt?
          (String.mk (pyStrip (removeSub "kb/s".toList (pyStrip row.BITRATE.toList)))) with
      | none => rw [hb] at hp; simp at hp
      | some bv =>
      rw [hb] at hp
      cases ht : pyFloat?
          (String.mk (pyStrip (removeSub "s".toList (pyStrip row.TIME.toList)))) with
      | none => rw [ht] at hp; simp at hp
      | some tv =>
      rw [ht] at hp
      cases hf : pyFloat? (String.mk (pyStrip row.AVG_FPS.toList)) with
      | none => rw [hf] at hp; simp at hp
      | some fv =>
      rw [hf] at hp
      cases hs :
          (if !(pyStrip row.AVG_SPEED.toList).isEmpty
              && pyStrip row.AVG_SPEED.toList != ['x']
              && lowerS (pyStrip row.AVG_SPEED.toList) != "nan".toList
           then (pyFloat? (String.mk (rstripX (pyStrip row.AVG_SPEED.toList)))).map some
           else some none : Option (Option PyFloat)) with
      | none => rw [hs] at hp; simp at hp
      | some sv =>
      rw [hs] at hp
      dsimp only at hp
      simp only [Option.some.injEq] at hp
      subst hp
      exact ⟨rfl, rfl⟩

end QuickSync
